import Mathlib

/-!
Verification development for the Telnyx SIP IVR server.

The per-call orchestrator from the repository is shallowly embedded as pure
state-transition functions.  Each webhook handler becomes a function from the
global state (the `activeCalls` map, the `transferredCalls` set, the
`inactivityTimeouts` table and the armed-timer view) to a new state together
with the list of gateway commands it issues.  External collaborators (the
Telnyx call-control API and the case directory) are modelled as command
emissions and as oracle functions.  Digit strings are lists of characters.

Embedded revisions:
 * `handleSpeakEndedSrc` follows `src/server.js` (`handleSpeakEnded`).
 * `handleCallHangupV1` follows the first revision of the server in the
   repository (the one with `hangupTimeoutId`, `maxDurationTimeoutId` and
   noise suppression).
 * `resetInactivityTimeout`, `handleInactivity`, `handleSpeakEnded`,
   `handleGatherEnded`, `procesarOpcionMenu`, `handleDtmfReceived`,
   `procesarBargeIn`, `handleCallHangup` and `handleIncomingCall` follow the
   inactivity-watchdog revision of the server.
 * `obtenerDataFromEndpoint` / `obtenerExpediente` follow
   `TelnyxService` (the case-directory cache).
-/

/-- Case record returned by the case directory (`obtenerExpediente`). -/
structure Expediente where
  nombre : String
  vehiculo : String
  estatus : String
  servicio : String
  destino : String
deriving DecidableEq, Repr

/-- Cost record (`obtenerExpedienteCosto`); optional fields model JS falsy checks. -/
structure Costos where
  costo : String
  km : String
  plano : String
  banderazo : Option String
  costoKm : Option String
deriving DecidableEq, Repr

/-- Unit record (`obtenerExpedienteUnidadOp`); optional fields model JS falsy checks. -/
structure Unidad where
  operador : Option String
  tipoGrua : Option String
  unidadOperativa : Option String
  placas : Option String
  placa : Option String
deriving DecidableEq, Repr

/-- Timing record (`obtenerExpedienteTiempos`). -/
structure Tiempos where
  tc : String
  tt : String
deriving DecidableEq, Repr

/-- Location record (`obtenerExpedienteUbicacion`). -/
structure Ubicacion where
  tiempoRestante : Option String
deriving DecidableEq, Repr

/-- Kinds of timers a session can own, one per `setTimeout` site. -/
inductive TimerKind where
  | pendingHangup
  | maxDuration
  | transferTimeout
  | messageTimeout
  | inactivity
deriving DecidableEq, Repr

/-- One entry of the `activeCalls` map: the per-call session record.
Fields mirror the properties stored on the JS object across revisions;
JS `undefined` is `none` and absent boolean flags default to `false`. -/
structure CallData where
  state : String := "initiated"
  gatheringDigits : Bool := false
  etapa : String := "esperando_expediente"
  intentos : Nat := 0
  expedientesConsultados : Nat := 0
  expedienteActual : Option (List Char) := none
  consultasPorExpediente : List (List Char × Nat) := []
  bargeInBuffer : Option (List Char) := none
  bargeInTimestamp : Option Nat := none
  expediente : Option (List Char) := none
  datosExpediente : Option Expediente := none
  transferPending : Bool := false
  suppressionStopped : Bool := false
  hangupTimeoutId : Option Nat := none
  maxDurationTimeoutId : Option Nat := none
  transferTimeoutId : Option Nat := none
  messageTimeoutId : Option Nat := none
  transferEnCurso : Bool := false
  transferIntento : Nat := 0
  lastActivity : Nat := 0
  startTime : Nat := 0
deriving DecidableEq, Repr

/-- Commands issued to the call-control gateway or the case directory.
Scheduled (`setTimeout`) actions are recorded with their delay. -/
inductive Cmd where
  | answer
  | speak (text : String)
  | gather (prompt : Option String) (valid : String) (maxDigits : Nat)
  | gatherLater (delayMs : Nat) (prompt : Option String) (valid : String) (maxDigits : Nat)
  | scheduleHangup (delayMs : Nat)
  | stopSpeaking
  | stopNoiseSuppression
  | lookupExpediente (num : List Char)
  | lookupCosto (num : List Char)
  | lookupUnidad (num : List Char)
  | lookupTiempos (num : List Char)
  | lookupUbicacion (num : List Char)
  | transferDial (dest : String)
  | startTransferProcess (dest : String)
  | scheduleBargeInCheck (delayMs : Nat)
deriving DecidableEq, Repr

/-- Association-list update, mirroring JS `Map.prototype.set`
(replace in place, otherwise append). -/
def setAssoc {κ ν : Type} [DecidableEq κ] : List (κ × ν) → κ → ν → List (κ × ν)
  | [], k, v => [(k, v)]
  | (k1, v1) :: t, k, v => if k1 = k then (k, v) :: t else (k1, v1) :: setAssoc t k v

/-- Association-list lookup, mirroring JS `Map.prototype.get`. -/
def lookupAssoc {κ ν : Type} [DecidableEq κ] : List (κ × ν) → κ → Option ν
  | [], _ => none
  | (k1, v1) :: t, k => if k1 = k then some v1 else lookupAssoc t k

/-- Association-list removal, mirroring JS `Map.prototype.delete`
(keys of a JS map are unique, so dropping every entry with the key is the
same operation). -/
def eraseAssoc {κ ν : Type} [DecidableEq κ] (l : List (κ × ν)) (k : κ) : List (κ × ν) :=
  l.filter (fun p => p.1 ≠ k)

/-- Set insertion, mirroring JS `Set.prototype.add`. -/
def insertSet {κ : Type} [DecidableEq κ] (l : List κ) (k : κ) : List κ :=
  if k ∈ l then l else k :: l

/-- Set removal, mirroring JS `Set.prototype.delete` / `Map.prototype.delete`
for the timer tables. -/
def removeSet {κ : Type} [DecidableEq κ] (l : List κ) (k : κ) : List κ :=
  l.filter (fun x => x ≠ k)

/-- Global mutable state of the server process. -/
structure GState where
  activeCalls : List (String × CallData) := []
  transferredCalls : List String := []
  inactivityTimeouts : List String := []
  armedTimers : List (String × TimerKind) := []
deriving DecidableEq, Repr

/-- `activeCalls.get(callId)`. -/
def getCall (s : GState) (callId : String) : Option CallData :=
  lookupAssoc s.activeCalls callId

/-- `activeCalls.set(callId, call)`. -/
def setCall (s : GState) (callId : String) (c : CallData) : GState :=
  { s with activeCalls := setAssoc s.activeCalls callId c }

/-- Spoken payloads of a command trace. -/
def spokenTexts (cmds : List Cmd) : List String :=
  cmds.filterMap (fun c => match c with | Cmd.speak t => some t | _ => none)

/-- Number of real transfer dials in a command trace. -/
def dialCount (cmds : List Cmd) : Nat :=
  (cmds.filter (fun c => match c with | Cmd.transferDial _ => true | _ => false)).length

/-- Stage of the session stored under `callId`, if any. -/
def stageAt (s : GState) (callId : String) : Option String :=
  (getCall s callId).map (·.etapa)

namespace MENSAJES

def BIENVENIDA : String := "Bienvenido a CrK Asistencia. Ingrese su número de expediente"

def REINGRESO_EXPEDIENTE : String := "Expediente no encontrado. Intente nuevamente"

def ERROR_GENERAL : String := "Ocurrió un error. Intente más tarde"

def ERROR_PROCESAMIENTO : String := "Ocurrió un error procesando su solicitud"

def NO_INFO_COSTOS : String := "No se encontró información de costos"

def NO_INFO_UNIDAD : String := "No se encontró información de la unidad"

def OPCION_INVALIDA : String := "Opción no válida"

def MENU_CONCLUIDO : String := "Presione 1 para costos, 2 para datos de unidad, 3 para tiempos, 5 para consultar otro expediente"

def MENU_EN_PROCESO : String := "Presione 1 para costos, 2 para datos de unidad, 3 para ubicación, 4 para tiempos, 5 para consultar otro expediente"

def LIMITE_EXPEDIENTES : String := "Ha alcanzado el límite de 10 expedientes consultados en esta llamada. Gracias por utilizar nuestro servicio."

def SEGUNDA_CONSULTA : String := "Esta es la segunda consulta de este expediente. Después de esta, deberá consultar un expediente diferente."

def EXPEDIENTE_YA_CONSULTADO : String := "Usted ya ha consultado este expediente dos veces. Por favor, realice una nueva llamada. Hasta luego."

def TRANSFERENCIA : String := "Expediente no encontrado. Transferiremos su llamada a un agente."

def INACTIVIDAD : String := "No hemos detectado actividad en los últimos 30 segundos. La llamada será finalizada. Gracias por utilizar nuestro servicio."

def NUEVO_EXPEDIENTE : String := "Por favor, ingrese el nuevo número de expediente."

def TRANSFERENCIA_FALLIDA : String := "No fue posible transferir su llamada. Por favor, intente más tarde."

end MENSAJES

/-- Oracle view of the case directory backend: each endpoint as a pure
function from the queried case number to an optional record (`none` models
both a not-found answer and a request error, which the service maps to
`null`). -/
structure Directory where
  expediente : List Char → Option Expediente
  costo : List Char → Option Costos
  unidad : List Char → Option Unidad
  tiempos : List Char → Option Tiempos
  ubicacion : List Char → Option Ubicacion

/-- `resetInactivityTimeout(callId, callControlId)` of the inactivity
revision: clear any previous inactivity timer for the call, arm a fresh one,
and stamp `lastActivity` on the session when it exists. -/
def resetInactivityTimeout (s : GState) (callId : String) (now : Nat) : GState :=
  let s1 : GState :=
    { s with inactivityTimeouts := insertSet (removeSet s.inactivityTimeouts callId) callId }
  match getCall s1 callId with
  | some call => setCall s1 callId { call with lastActivity := now }
  | none => s1

/-- `handleInactivity(callId, callControlId)`: the inactivity watchdog body.
Transfer-phase sessions are exempt; otherwise it speaks the notice, schedules
a hangup after 5 seconds and drops the timer entry. -/
def handleInactivity (s : GState) (callId : String) : GState × List Cmd :=
  match getCall s callId with
  | none => (s, [])
  | some call =>
    if call.etapa = "transferencia" ∨ call.transferPending = true then
      (s, [])
    else
      ({ s with
          inactivityTimeouts := removeSet s.inactivityTimeouts callId },
       [Cmd.speak MENSAJES.INACTIVIDAD, Cmd.scheduleHangup 5000])

/-- `handleSpeakEnded(callControlId, callId)` of the inactivity revision.
On a pending transfer announcement it checks the `transferredCalls` one-shot
set (keyed by the control id), clears `transferPending` and delegates to the
transfer-retry process; otherwise, outside the transfer stage, it re-arms the
inactivity timer and starts an open-ended digit collection. -/
def handleSpeakEnded (s : GState) (ccid callId : String) (numeroSoporte : String)
    (now : Nat) : GState × List Cmd :=
  match getCall s callId with
  | none => (s, [])
  | some call =>
    if call.transferPending then
      if ccid ∈ s.transferredCalls then (s, [])
      else
        let s1 := setCall s callId { call with transferPending := false }
        (s1, [Cmd.startTransferProcess numeroSoporte])
    else if call.etapa ≠ "transferencia" then
      let s1 := resetInactivityTimeout s callId now
      let s2 := setCall s1 callId { call with gatheringDigits := true }
      (s2, [Cmd.gather none "0123456789#" 10])
    else (s, [])

/-- `procesarOpcionMenu(callControlId, callId, opcion)`.  Dispatches the one
menu digit, queries the matching directory endpoint, and either speaks the
answer followed by a delayed menu re-presentation, returns early (option 5),
or speaks the processing-error message when a JS property access on a missing
record would throw. -/
def procesarOpcionMenu (s : GState) (callId : String) (opcion : List Char)
    (dir : Directory) (now : Nat) : GState × List Cmd :=
  match getCall s callId with
  | none => (s, [])
  | some call =>
    let s1 := setCall s callId { call with lastActivity := now }
    let expediente := call.expediente.getD []
    -- branch result: commands issued so far, and the answer text
    -- (`none` models a thrown property access, caught by the handler)
    let branch : List Cmd × Option String :=
      if opcion = ['1'] then
        match dir.costo expediente with
        | some costos =>
          match call.datosExpediente with
          | none => ([Cmd.lookupCosto expediente], none)
          | some de =>
            let desglose :=
              if de.servicio = "Local" then
                costos.km ++ " kilómetros, plano " ++ costos.plano
              else if de.servicio = "Carretero" then
                costos.km ++ " kilómetros, " ++
                  (match costos.banderazo with
                   | some b => "banderazo " ++ b ++ ", "
                   | none => "") ++
                  (match costos.costoKm with
                   | some ck => "costo por kilómetro " ++ ck
                   | none => "")
              else ""
            ([Cmd.lookupCosto expediente],
             some ("El costo total es " ++ costos.costo ++ ". " ++ desglose))
        | none => ([Cmd.lookupCosto expediente], some MENSAJES.NO_INFO_COSTOS)
      else if opcion = ['2'] then
        match dir.unidad expediente with
        | some unidad =>
          ([Cmd.lookupUnidad expediente],
           some ("Datos de la unidad: Operador " ++ unidad.operador.getD "No asignado" ++ ". " ++
             "Tipo de Grúa: " ++ unidad.tipoGrua.getD "No especificado" ++ ". " ++
             "Número Económico: " ++ unidad.unidadOperativa.getD "No disponible" ++ ". " ++
             "Placas: " ++ (match unidad.placas with
                            | some p => p
                            | none => unidad.placa.getD "No disponible") ++ "."))
        | none => ([Cmd.lookupUnidad expediente], some MENSAJES.NO_INFO_UNIDAD)
      else if opcion = ['3'] then
        match call.datosExpediente with
        | none => ([], none)
        | some de =>
          if de.estatus = "Concluido" then
            match dir.tiempos expediente with
            | some tiempos =>
              ([Cmd.lookupTiempos expediente],
               some ("Tiempos del servicio: Contacto en " ++ tiempos.tc ++
                 ", Término en " ++ tiempos.tt ++ "."))
            | none => ([Cmd.lookupTiempos expediente], none)
          else
            match dir.ubicacion expediente with
            | some ubicacion =>
              ([Cmd.lookupUbicacion expediente],
               some ("Tiempo estimado de llegada: " ++
                 ubicacion.tiempoRestante.getD "No disponible" ++ "."))
            | none => ([Cmd.lookupUbicacion expediente], none)
      else if opcion = ['4'] then
        match call.datosExpediente with
        | none => ([], none)
        | some de =>
          if de.estatus ≠ "Concluido" then
            match dir.tiempos expediente with
            | some tiempos =>
              ([Cmd.lookupTiempos expediente],
               some ("Tiempos del servicio: Contacto en " ++ tiempos.tc ++
                 ", Término en " ++ tiempos.tt ++ "."))
            | none => ([Cmd.lookupTiempos expediente], none)
          else ([], some "")
      else ([], some MENSAJES.OPCION_INVALIDA)
    if opcion = ['5'] then
      if call.expedientesConsultados ≥ 10 then
        (s1, [Cmd.speak MENSAJES.LIMITE_EXPEDIENTES, Cmd.scheduleHangup 5000])
      else
        let s2 := setCall s1 callId
          { call with etapa := "esperando_expediente", intentos := 0, lastActivity := now }
        (s2, [Cmd.speak MENSAJES.NUEVO_EXPEDIENTE, Cmd.gather none "0123456789#" 10])
    else
      match branch with
      | (lk, some respuesta) =>
        let tail :=
          match call.datosExpediente with
          | some de =>
            let menuOpciones :=
              if de.estatus = "Concluido" then MENSAJES.MENU_CONCLUIDO
              else MENSAJES.MENU_EN_PROCESO
            [Cmd.speak respuesta, Cmd.gatherLater 250 (some menuOpciones) "12345" 1]
          | none => [Cmd.speak respuesta]
        (s1, lk ++ tail)
      | (lk, none) =>
        (s1, lk ++ [Cmd.speak MENSAJES.ERROR_PROCESAMIENTO])

/-- `handleGatherEnded(callControlId, callId, payload)` of the inactivity
revision: re-arm the inactivity timer, then drive the AwaitingCase branch
(ceilings, case lookup, menu entry, re-prompt or transfer announcement) or
dispatch to the menu handler. -/
def handleGatherEnded (s : GState) (ccid callId : String) (digits : List Char)
    (dir : Directory) (numeroSoporte : String) (now : Nat) : GState × List Cmd :=
  match getCall s callId with
  | none => (s, [])
  | some call =>
    let s0 := resetInactivityTimeout s callId now
    let ec := call.expedientesConsultados
    let cpe := call.consultasPorExpediente
    if call.etapa = "esperando_expediente" then
      if ec ≥ 10 then
        (s0, [Cmd.speak MENSAJES.LIMITE_EXPEDIENTES, Cmd.scheduleHangup 5000])
      else if (match lookupAssoc cpe digits with | some n => decide (n ≥ 2) | none => false) then
        (s0, [Cmd.speak MENSAJES.EXPEDIENTE_YA_CONSULTADO, Cmd.scheduleHangup 5000])
      else
        match dir.expediente digits with
        | some data =>
          let consultasActuales := (lookupAssoc cpe digits).getD 0
          let consultasMap := setAssoc cpe digits (consultasActuales + 1)
          let mensajeAdicional :=
            if consultasActuales = 1 then MENSAJES.SEGUNDA_CONSULTA ++ " " else ""
          let s1 := setCall s0 callId
            { call with
                etapa := "menu_principal", expediente := some digits,
                datosExpediente := some data, intentos := 0,
                expedientesConsultados := ec + 1, expedienteActual := some digits,
                consultasPorExpediente := consultasMap, lastActivity := now }
          let mensaje := mensajeAdicional ++ "Expediente encontrado. " ++ data.nombre ++ ". " ++
            "Vehículo: " ++ data.vehiculo ++ ". Estado: " ++ data.estatus ++
            ". Servicio: " ++ data.servicio ++ ". " ++
            "Destino: " ++ data.destino ++ ". "
          let menuOpciones :=
            if data.estatus = "Concluido" then MENSAJES.MENU_CONCLUIDO
            else MENSAJES.MENU_EN_PROCESO
          (s1, [Cmd.lookupExpediente digits, Cmd.speak mensaje,
                Cmd.gather (some menuOpciones) "12345" 1])
        | none =>
          let intentos1 := call.intentos + 1
          if intentos1 ≥ 2 then
            let s1 := setCall s0 callId
              { call with
                  intentos := intentos1, lastActivity := now,
                  etapa := "transferencia", gatheringDigits := false, transferPending := true }
            (s1, [Cmd.lookupExpediente digits, Cmd.speak MENSAJES.TRANSFERENCIA])
          else
            let s1 := setCall s0 callId
              { call with intentos := intentos1, lastActivity := now }
            let r2 := handleSpeakEnded s1 ccid callId numeroSoporte now
            (r2.1, [Cmd.lookupExpediente digits,
                    Cmd.speak MENSAJES.REINGRESO_EXPEDIENTE] ++ r2.2)
    else if call.etapa = "menu_principal" then
      procesarOpcionMenu s0 callId digits dir now
    else (s0, [])

/-- `procesarBargeIn(callControlId, callId)`: flush the barge-in buffer.
A quiet-window check guards flushes with no terminator; a trailing terminator
is stripped, the buffer cleared, and the result fed to `handleGatherEnded`. -/
def procesarBargeIn (s : GState) (ccid callId : String) (dir : Directory)
    (numeroSoporte : String) (now : Nat) : GState × List Cmd :=
  match getCall s callId with
  | none => (s, [])
  | some call =>
    match call.bargeInBuffer with
    | none => (s, [])
    | some buf =>
      if now - call.bargeInTimestamp.getD 0 < 2000 ∧ ¬ buf.contains '#' then (s, [])
      else
        let digits := if buf.getLast? = some '#' then buf.dropLast else buf
        let s1 := setCall s callId
          { call with bargeInBuffer := none, bargeInTimestamp := none }
        handleGatherEnded s1 ccid callId digits dir numeroSoporte now

/-- `handleDtmfReceived(callControlId, callId, payload)` of the inactivity
revision: re-arm the inactivity timer, then start or extend the barge-in
buffer; the terminator digit flushes immediately. -/
def handleDtmfReceived (s : GState) (ccid callId : String) (digit : Char)
    (dir : Directory) (numeroSoporte : String) (now : Nat) : GState × List Cmd :=
  match getCall s callId with
  | none => (s, [])
  | some call =>
    let s0 := resetInactivityTimeout s callId now
    if call.gatheringDigits then (s0, [])
    else if call.etapa = "esperando_expediente" ∧ call.bargeInBuffer = none then
      let s1 := setCall s0 callId
        { call with
            bargeInBuffer := some [digit], bargeInTimestamp := some now,
            lastActivity := now }
      (s1, [Cmd.stopSpeaking, Cmd.scheduleBargeInCheck 3000])
    else
      match call.bargeInBuffer with
      | some buf =>
        if digit = '#' then
          let s1 := setCall s0 callId
            { call with bargeInBuffer := some (buf ++ [digit]), lastActivity := now }
          procesarBargeIn s1 ccid callId dir numeroSoporte now
        else
          let s1 := setCall s0 callId
            { call with
                bargeInBuffer := some (buf ++ [digit]),
                bargeInTimestamp := some now, lastActivity := now }
          (s1, [Cmd.scheduleBargeInCheck 3000])
      | none => (s0, [])

/-- `handleCallHangup(callId, payload)` of the inactivity revision:
drop the session from `activeCalls`, remove the id from `transferredCalls`,
and clear plus drop the inactivity timer entry. -/
def handleCallHangup (s : GState) (callId : String) : GState :=
  { s with
      activeCalls := eraseAssoc s.activeCalls callId,
           transferredCalls := removeSet s.transferredCalls callId,
           inactivityTimeouts := removeSet s.inactivityTimeouts callId }

/-- Outcome of the `answerCall` API request inside `handleIncomingCall`. -/
inductive AnswerOutcome where
  | ok
  | err422
  | errOther
deriving DecidableEq, Repr

/-- Fresh session record created by `handleIncomingCall` of the inactivity
revision. -/
def newCall (now : Nat) : CallData :=
  { state := "initiated", gatheringDigits := false, etapa := "esperando_expediente",
    intentos := 0, expedientesConsultados := 0, expedienteActual := none,
    consultasPorExpediente := [], bargeInBuffer := none, bargeInTimestamp := none,
    lastActivity := now }

/-- `handleIncomingCall(callControlId, callId, payload)` of the inactivity
revision.  A call dialed at the configured support number is the transfer leg
and is left untouched; otherwise a session is created, the inactivity timer
armed, the call answered (a 422 or other failure removes the session again)
and the welcome prompt spoken. -/
def handleIncomingCall (s : GState) (callId toNum numeroSoporte : String)
    (answer : AnswerOutcome) (now : Nat) : GState × List Cmd :=
  if toNum = numeroSoporte then (s, [])
  else
    let s1 := setCall s callId (newCall now)
    let s2 := resetInactivityTimeout s1 callId now
    match answer with
    | AnswerOutcome.ok => (s2, [Cmd.answer, Cmd.speak MENSAJES.BIENVENIDA])
    | AnswerOutcome.err422 =>
      ({ s2 with activeCalls := eraseAssoc s2.activeCalls callId,
                 inactivityTimeouts := removeSet s2.inactivityTimeouts callId },
       [Cmd.answer])
    | AnswerOutcome.errOther =>
      ({ s2 with activeCalls := eraseAssoc s2.activeCalls callId,
                 inactivityTimeouts := removeSet s2.inactivityTimeouts callId },
       [Cmd.answer])

/-- `handleCallHangup(callId, payload)` of the first full revision (the one
with max-duration and pending-hangup timers): when the session exists, its
recorded pending-hangup and max-duration timeout handles are cleared and a
best-effort noise-suppression stop is issued; finally the session is removed
from `activeCalls` and `transferredCalls`.  The transfer-attempt and
retry-message timeout handles are not touched. -/
def handleCallHangupV1 (s : GState) (callId : String) (ccidPresent : Bool) :
    GState × List Cmd :=
  match getCall s callId with
  | some call =>
    let t1 :=
      if call.hangupTimeoutId.isSome then
        (s.armedTimers.filter (fun t => t ≠ (callId, TimerKind.pendingHangup)))
      else s.armedTimers
    let t2 :=
      if call.maxDurationTimeoutId.isSome then
        (t1.filter (fun t => t ≠ (callId, TimerKind.maxDuration)))
      else t1
    let cmds := if ccidPresent ∧ ¬ call.suppressionStopped
      then [Cmd.stopNoiseSuppression] else []
    ({ s with armedTimers := t2,
              activeCalls := eraseAssoc s.activeCalls callId,
              transferredCalls := removeSet s.transferredCalls callId }, cmds)
  | none =>
    ({ s with activeCalls := eraseAssoc s.activeCalls callId,
              transferredCalls := removeSet s.transferredCalls callId }, [])

/-- `handleSpeakEnded(callControlId, callId)` of `src/server.js`.  On a
pending transfer announcement: bail out if the call is already in the
`transferredCalls` one-shot set, otherwise clear `transferPending`, dial the
support number, and on success record the call in `transferredCalls` (a
failed dial speaks an apology and schedules a hangup).  Outside the transfer
stage, start an open-ended digit collection. -/
def handleSpeakEndedSrc (s : GState) (callId numeroSoporte : String)
    (transferOk : Bool) : GState × List Cmd :=
  match getCall s callId with
  | none => (s, [])
  | some call =>
    if call.transferPending then
      if callId ∈ s.transferredCalls then (s, [])
      else
        let s1 := setCall s callId { call with transferPending := false }
        if transferOk then
          ({ s1 with transferredCalls := insertSet s1.transferredCalls callId },
           [Cmd.transferDial numeroSoporte])
        else
          (s1, [Cmd.transferDial numeroSoporte,
                Cmd.speak MENSAJES.TRANSFERENCIA_FALLIDA, Cmd.scheduleHangup 3000])
    else if call.etapa ≠ "transferencia" then
      (setCall s callId { call with gatheringDigits := true },
       [Cmd.gather none "0123456789#" 10])
    else (s, [])

/-- Event-sequence runner: fold a step function over a list of events,
threading the state and concatenating the command traces. -/
def runTrace {σ ε : Type} (step : σ → ε → σ × List Cmd) (s : σ) (es : List ε) :
    σ × List Cmd :=
  es.foldl (fun acc e => let r := step acc.1 e; (r.1, acc.2 ++ r.2)) (s, [])

/-- Processing a sequence of duplicate speech-completed events through the
`src/server.js` handler, accumulating the commands; each event carries the
outcome of the dial it may perform. -/
def runSpeakEndedSrc (s : GState) (callId numeroSoporte : String)
    (oks : List Bool) : GState × List Cmd :=
  runTrace (fun st ok => handleSpeakEndedSrc st callId numeroSoporte ok) s oks

/-- Processing a sequence of DTMF digit events through `handleDtmfReceived`,
accumulating the commands. -/
def runDtmf (s : GState) (ccid callId : String) (ds : List Char)
    (dir : Directory) (numeroSoporte : String) (now : Nat) : GState × List Cmd :=
  runTrace (fun st d => handleDtmfReceived st ccid callId d dir numeroSoporte now) s ds

/-- The webhook endpoint (`app.post` handler): a missing or falsy event type
or a missing payload is rejected with status 400 before any session access;
otherwise the inner dispatch runs — its mutations and commands are kept and
a thrown error is swallowed — and status 200 is returned. -/
def webhook (s : GState) (eventType : Option String) (payloadPresent : Bool)
    (handler : GState → GState × List Cmd × Bool) : Nat × GState × List Cmd :=
  if eventType = none ∨ eventType = some "" ∨ payloadPresent = false then
    (400, s, [])
  else
    let r := handler s
    (200, r.1, r.2.1)

/-- `TelnyxService.obtenerDataFromEndpoint(cacheKey, endpoint)`: answer from
the in-memory cache when the key is present; otherwise issue the backend
request (third component `true`), caching and returning the data on success,
and returning `null` while caching nothing on a request error (`response =
none`). -/
def obtenerDataFromEndpoint {α : Type} (cache : List (String × α))
    (cacheKey : String) (response : Option α) :
    Option α × List (String × α) × Bool :=
  match lookupAssoc cache cacheKey with
  | some v => (some v, cache, false)
  | none =>
    match response with
    | some data => (some data, setAssoc cache cacheKey data, true)
    | none => (none, cache, true)

/-- `TelnyxService.obtenerExpediente(numeroExp)`: the case lookup keyed as
`expediente-` plus the case number. -/
def obtenerExpediente {α : Type} (cache : List (String × α))
    (numeroExp : String) (response : Option α) :
    Option α × List (String × α) × Bool :=
  obtenerDataFromEndpoint cache ("expediente-" ++ numeroExp) response

/-- Running a sequence of cache-backed endpoint fetches, keeping only the
evolving cache. -/
def runLookups {α : Type} (cache : List (String × α))
    (ops : List (String × Option α)) : List (String × α) :=
  ops.foldl (fun c op => (obtenerDataFromEndpoint c op.1 op.2).2.1) cache

/-! Basic lemmas about the map and set operations. -/

theorem lookupAssoc_setAssoc {κ ν : Type} [DecidableEq κ]
    (l : List (κ × ν)) (k k1 : κ) (v : ν) :
    lookupAssoc (setAssoc l k v) k1 = if k = k1 then some v else lookupAssoc l k1 := by
  induction l with
  | nil => by_cases h : k = k1 <;> simp [setAssoc, lookupAssoc, h]
  | cons p t ih =>
    obtain ⟨k2, v2⟩ := p
    by_cases h2 : k2 = k
    · subst h2
      by_cases h1 : k2 = k1 <;> simp [setAssoc, lookupAssoc, h1]
    · by_cases h1 : k2 = k1
      · subst h1
        have hk : k ≠ k2 := fun h => h2 h.symm
        simp [setAssoc, lookupAssoc, h2, hk, ih]
      · simp [setAssoc, lookupAssoc, h2, h1, ih]

theorem lookupAssoc_setAssoc_self {κ ν : Type} [DecidableEq κ]
    (l : List (κ × ν)) (k : κ) (v : ν) :
    lookupAssoc (setAssoc l k v) k = some v := by
  simp [lookupAssoc_setAssoc]

theorem setAssoc_setAssoc {κ ν : Type} [DecidableEq κ]
    (l : List (κ × ν)) (k : κ) (v w : ν) :
    setAssoc (setAssoc l k v) k w = setAssoc l k w := by
  induction l with
  | nil => simp [setAssoc]
  | cons p t ih =>
    obtain ⟨k2, v2⟩ := p
    by_cases h2 : k2 = k
    · simp [setAssoc, h2]
    · simp [setAssoc, h2, ih]

theorem lookupAssoc_eraseAssoc_self {κ ν : Type} [DecidableEq κ]
    (l : List (κ × ν)) (k : κ) :
    lookupAssoc (eraseAssoc l k) k = none := by
  induction l with
  | nil => rfl
  | cons p t ih =>
    obtain ⟨k2, v2⟩ := p
    by_cases h2 : k2 = k
    · simpa [eraseAssoc, List.filter, h2] using ih
    · simpa [eraseAssoc, lookupAssoc, List.filter, h2] using ih

theorem eraseAssoc_idem {κ ν : Type} [DecidableEq κ]
    (l : List (κ × ν)) (k : κ) :
    eraseAssoc (eraseAssoc l k) k = eraseAssoc l k := by
  simp [eraseAssoc, List.filter_filter]

theorem removeSet_idem {κ : Type} [DecidableEq κ] (l : List κ) (k : κ) :
    removeSet (removeSet l k) k = removeSet l k := by
  simp [removeSet, List.filter_filter]

theorem notMem_removeSet {κ : Type} [DecidableEq κ] (l : List κ) (k : κ) :
    k ∉ removeSet l k := by
  simp [removeSet]

theorem mem_insertSet_self {κ : Type} [DecidableEq κ] (l : List κ) (k : κ) :
    k ∈ insertSet l k := by
  by_cases h : k ∈ l <;> simp [insertSet, h]

theorem removeSet_insertSet {κ : Type} [DecidableEq κ] (l : List κ) (k : κ) :
    removeSet (insertSet l k) k = removeSet l k := by
  by_cases h : k ∈ l <;> simp [insertSet, removeSet, h]

theorem getCall_setCall_self (s : GState) (c : String) (v : CallData) :
    getCall (setCall s c v) c = some v := by
  simp [getCall, setCall, lookupAssoc_setAssoc_self]

theorem setCall_setCall (s : GState) (c : String) (v w : CallData) :
    setCall (setCall s c v) c w = setCall s c w := by
  simp [setCall, setAssoc_setAssoc]

theorem runTrace_acc {σ ε : Type} (step : σ → ε → σ × List Cmd)
    (es : List ε) (s : σ) (a : List Cmd) :
    es.foldl (fun acc e => let r := step acc.1 e; (r.1, acc.2 ++ r.2)) (s, a)
      = ((runTrace step s es).1, a ++ (runTrace step s es).2) := by
  induction es generalizing s a with
  | nil => simp [runTrace]
  | cons e t ih =>
    simp only [runTrace, List.foldl_cons]
    rw [ih, ih]
    simp

theorem runTrace_cons {σ ε : Type} (step : σ → ε → σ × List Cmd)
    (s : σ) (e : ε) (es : List ε) :
    runTrace step s (e :: es)
      = ((runTrace step (step s e).1 es).1,
         (step s e).2 ++ (runTrace step (step s e).1 es).2) := by
  simp only [runTrace, List.foldl_cons]
  exact runTrace_acc step es (step s e).1 (step s e).2

theorem runTrace_nil {σ ε : Type} (step : σ → ε → σ × List Cmd) (s : σ) :
    runTrace step s ([] : List ε) = (s, []) := rfl

theorem resetInactivityTimeout_some (s : GState) (c : String) (now : Nat)
    (call : CallData) (h : getCall s c = some call) :
    resetInactivityTimeout s c now
      = { s with
          inactivityTimeouts := insertSet (removeSet s.inactivityTimeouts c) c,
          activeCalls := setAssoc s.activeCalls c { call with lastActivity := now } } := by
  have h1 : getCall
      { s with inactivityTimeouts := insertSet (removeSet s.inactivityTimeouts c) c } c
      = some call := h
  simp only [resetInactivityTimeout, h1]
  rfl

theorem resetInactivityTimeout_none (s : GState) (c : String) (now : Nat)
    (h : getCall s c = none) :
    resetInactivityTimeout s c now
      = { s with
          inactivityTimeouts := insertSet (removeSet s.inactivityTimeouts c) c } := by
  have h1 : getCall
      { s with inactivityTimeouts := insertSet (removeSet s.inactivityTimeouts c) c } c
      = none := h
  simp only [resetInactivityTimeout, h1]

theorem inactivityTimeouts_reset (s : GState) (c : String) (now : Nat) :
    (resetInactivityTimeout s c now).inactivityTimeouts
      = insertSet (removeSet s.inactivityTimeouts c) c := by
  cases h : getCall s c with
  | some call => rw [resetInactivityTimeout_some s c now call h]
  | none => rw [resetInactivityTimeout_none s c now h]

theorem getCall_reset (s : GState) (c : String) (now : Nat) :
    getCall (resetInactivityTimeout s c now) c
      = (getCall s c).map (fun call => { call with lastActivity := now }) := by
  cases h : getCall s c with
  | some call =>
    rw [resetInactivityTimeout_some s c now call h]
    simp [getCall, lookupAssoc_setAssoc_self]
  | none =>
    rw [resetInactivityTimeout_none s c now h]
    simpa [getCall] using h

theorem stageAt_setCall_self (s : GState) (c : String) (v : CallData) :
    stageAt (setCall s c v) c = some v.etapa := by
  simp [stageAt, getCall_setCall_self]

theorem stageAt_reset (s : GState) (c : String) (now : Nat) :
    stageAt (resetInactivityTimeout s c now) c = stageAt s c := by
  simp only [stageAt, getCall_reset]
  cases getCall s c <;> rfl

/-- C8: replaying the same call-ended notification twice leaves the call
store, the transferred-calls set and the inactivity-timer table exactly as
after processing it once: the second application is a no-op. -/
theorem hangup_replay_idempotent (s : GState) (callId : String) :
    handleCallHangup (handleCallHangup s callId) callId = handleCallHangup s callId := by
  simp [handleCallHangup, eraseAssoc_idem, removeSet_idem]

/-- C3: in the AwaitingCase stage with ten successful case lookups already
recorded, any further digit submission only speaks the limit message and
schedules a hangup; no case-directory lookup command is issued (the ceiling
is checked before any lookup). -/
theorem case_ceiling_rejects_without_lookup
    (s : GState) (ccid callId : String) (digits : List Char) (dir : Directory)
    (ns : String) (now : Nat) (call : CallData)
    (hget : getCall s callId = some call)
    (hstage : call.etapa = "esperando_expediente")
    (hceil : call.expedientesConsultados ≥ 10) :
    handleGatherEnded s ccid callId digits dir ns now
      = (resetInactivityTimeout s callId now,
         [Cmd.speak MENSAJES.LIMITE_EXPEDIENTES, Cmd.scheduleHangup 5000])
    ∧ ∀ d, Cmd.lookupExpediente d ∉ (handleGatherEnded s ccid callId digits dir ns now).2 := by
  have h1 : handleGatherEnded s ccid callId digits dir ns now
      = (resetInactivityTimeout s callId now,
         [Cmd.speak MENSAJES.LIMITE_EXPEDIENTES, Cmd.scheduleHangup 5000]) := by
    simp only [handleGatherEnded, hget]
    simp [hstage, hceil]
  refine ⟨h1, ?_⟩
  rw [h1]
  intro d
  simp

/-- C9: a call-initiated notification whose destination is the configured
support number is the dialed transfer leg; the handler creates no session,
answers nothing and speaks nothing. -/
theorem transfer_leg_not_processed (s : GState) (callId toNum ns : String)
    (answer : AnswerOutcome) (now : Nat) (h : toNum = ns) :
    handleIncomingCall s callId toNum ns answer now = (s, []) := by
  simp [handleIncomingCall, h]

/-- Witness for `transfer_leg_not_processed` at a concrete state. -/
theorem transfer_leg_not_processed_witness :
    handleIncomingCall {} "c1" "5510112858" "5510112858" AnswerOutcome.ok 0
      = ({}, []) :=
  transfer_leg_not_processed {} "c1" "5510112858" "5510112858" AnswerOutcome.ok 0 rfl

/-- C6: the webhook endpoint rejects a notification with a missing event
type or missing payload with status 400 and no session mutation and no
commands; a well-formed notification is acknowledged with status 200 even
when the inner dispatch reports a thrown error. -/
theorem webhook_status_contract :
    (∀ (s : GState) (et : Option String) (pp : Bool)
       (h : GState → GState × List Cmd × Bool),
       et = none ∨ pp = false → webhook s et pp h = (400, s, []))
    ∧ (∀ (s : GState) (t : String) (h : GState → GState × List Cmd × Bool),
       t ≠ "" → (webhook s (some t) true h).1 = 200) := by
  constructor
  · intro s et pp h hmal
    rcases hmal with h1 | h1 <;> simp [webhook, h1]
  · intro s t h ht
    simp [webhook, ht]

/-- Witness for `webhook_status_contract`: a missing event type yields 400
with no mutation, and a well-formed event yields 200 even for a dispatch
that reports an internal error. -/
theorem webhook_status_contract_witness :
    webhook {} none true (fun s => (s, [], true)) = (400, {}, [])
    ∧ (webhook {} (some "call.hangup") true (fun s => (s, [], true))).1 = 200 :=
  ⟨webhook_status_contract.1 {} none true (fun s => (s, [], true)) (Or.inl rfl),
   webhook_status_contract.2 {} "call.hangup" (fun s => (s, [], true)) (by decide)⟩

theorem lookupAssoc_runLookups {α : Type} (cache : List (String × α))
    (k : String) (v : α) (ops : List (String × Option α))
    (h : lookupAssoc cache k = some v) :
    lookupAssoc (runLookups cache ops) k = some v := by
  induction ops generalizing cache with
  | nil => exact h
  | cons op t ih =>
    simp only [runLookups, List.foldl_cons]
    have hstep : lookupAssoc (obtenerDataFromEndpoint cache op.1 op.2).2.1 k = some v := by
      unfold obtenerDataFromEndpoint
      cases hl : lookupAssoc cache op.1 with
      | some w => simpa using h
      | none =>
        cases hr : op.2 with
        | none => simpa using h
        | some d =>
          have hne : op.1 ≠ k := by
            intro he
            rw [he, h] at hl
            cases hl
          simp [lookupAssoc_setAssoc, hne, h]
    exact ih _ hstep

/-- C10: the case directory client caches by case number in process memory.
A first lookup of a case number that reaches the backend and succeeds stores
the record; any later lookup of the same number, after arbitrary other
cached fetches, returns the stored record and issues no backend request; a
lookup whose request errors returns null and caches nothing. -/
theorem directory_cache_contract {α : Type} (cache : List (String × α))
    (num : String) (d : α) (ops : List (String × Option α)) (r : Option α)
    (h : lookupAssoc cache ("expediente-" ++ num) = none) :
    obtenerExpediente cache num (some d)
        = (some d, setAssoc cache ("expediente-" ++ num) d, true)
    ∧ obtenerExpediente (runLookups (setAssoc cache ("expediente-" ++ num) d) ops) num r
        = (some d, runLookups (setAssoc cache ("expediente-" ++ num) d) ops, false)
    ∧ obtenerExpediente cache num none = (none, cache, true) := by
  have hmem : lookupAssoc (runLookups (setAssoc cache ("expediente-" ++ num) d) ops)
      ("expediente-" ++ num) = some d :=
    lookupAssoc_runLookups _ _ _ _ (lookupAssoc_setAssoc_self _ _ _)
  refine ⟨?_, ?_, ?_⟩ <;>
    simp [obtenerExpediente, obtenerDataFromEndpoint, h, hmem]

/-- Witness for `directory_cache_contract` on a concrete cache and case. -/
theorem directory_cache_contract_witness :
    obtenerExpediente ([] : List (String × Nat)) "100" (some 7)
        = (some 7, [("expediente-100", 7)], true)
    ∧ obtenerExpediente (runLookups [("expediente-100", 7)] [("otro", some 3)]) "100" none
        = (some 7, runLookups [("expediente-100", 7)] [("otro", some 3)], false)
    ∧ obtenerExpediente ([] : List (String × Nat)) "100" none = (none, [], true) := by
  have h := directory_cache_contract ([] : List (String × Nat)) "100" 7
    [("otro", some 3)] none rfl
  simpa using h

/-- C5 (amended): on a call-ended notification the first-revision handler
removes the session from the store and the transferred set and clears the
pending-hangup and max-duration timeout handles the session records; the
transfer-attempt and retry-message timers are not cancelled. -/
theorem hangup_timer_cancellation_amended (s : GState) (callId : String)
    (ccidp : Bool) (call : CallData) (hget : getCall s callId = some call) :
    getCall (handleCallHangupV1 s callId ccidp).1 callId = none
    ∧ callId ∉ (handleCallHangupV1 s callId ccidp).1.transferredCalls
    ∧ (call.hangupTimeoutId.isSome →
        (callId, TimerKind.pendingHangup) ∉ (handleCallHangupV1 s callId ccidp).1.armedTimers)
    ∧ (call.maxDurationTimeoutId.isSome →
        (callId, TimerKind.maxDuration) ∉ (handleCallHangupV1 s callId ccidp).1.armedTimers) := by
  simp only [handleCallHangupV1, hget]
  refine ⟨?_, ?_, ?_, ?_⟩
  · simpa [getCall] using lookupAssoc_eraseAssoc_self s.activeCalls callId
  · exact notMem_removeSet _ _
  · intro hh
    by_cases hm : call.maxDurationTimeoutId.isSome <;>
      simp [hh, hm, List.mem_filter]
  · intro hm
    by_cases hh : call.hangupTimeoutId.isSome <;>
      simp [hh, hm, List.mem_filter]

/-- Witness for `hangup_timer_cancellation_amended` at a concrete state. -/
theorem hangup_timer_cancellation_amended_witness :
    getCall (handleCallHangupV1
      { activeCalls := [("c1", { hangupTimeoutId := some 1, maxDurationTimeoutId := some 2 })],
        armedTimers := [("c1", TimerKind.pendingHangup), ("c1", TimerKind.maxDuration)] }
      "c1" true).1 "c1" = none
    ∧ "c1" ∉ (handleCallHangupV1
      { activeCalls := [("c1", { hangupTimeoutId := some 1, maxDurationTimeoutId := some 2 })],
        armedTimers := [("c1", TimerKind.pendingHangup), ("c1", TimerKind.maxDuration)] }
      "c1" true).1.transferredCalls := by
  have h := hangup_timer_cancellation_amended
    { activeCalls := [("c1", { hangupTimeoutId := some 1, maxDurationTimeoutId := some 2 })],
      armedTimers := [("c1", TimerKind.pendingHangup), ("c1", TimerKind.maxDuration)] }
    "c1" true { hangupTimeoutId := some 1, maxDurationTimeoutId := some 2 } rfl
  exact ⟨h.1, h.2.1⟩

/-- Session holding an armed transfer-attempt timeout, as left by the
transfer retry controller after a dial. -/
def cexHangupState : GState :=
  { activeCalls := [("c1", { transferTimeoutId := some 7, transferEnCurso := true })],
    armedTimers := [("c1", TimerKind.transferTimeout)] }

/-- C5 counterexample: processing a call-ended notification for a session
whose transfer-attempt timeout is armed removes the session but leaves that
timer armed, so a timer belonging to a removed session remains armed
afterwards, contrary to the claim. -/
theorem hangup_timer_cancellation_counterexample :
    getCall (handleCallHangupV1 cexHangupState "c1" true).1 "c1" = none
    ∧ (handleCallHangupV1 cexHangupState "c1" true).1.armedTimers
        = [("c1", TimerKind.transferTimeout)] := by
  constructor <;> rfl

theorem its_procesarOpcionMenu (s : GState) (callId : String) (opcion : List Char)
    (dir : Directory) (now : Nat) :
    (procesarOpcionMenu s callId opcion dir now).1.inactivityTimeouts
      = s.inactivityTimeouts := by
  unfold procesarOpcionMenu
  cases h : getCall s callId with
  | none => simp [h]
  | some call =>
    simp only [h]
    split
    · split <;> rfl
    · split <;> rfl

theorem mem_its_handleSpeakEnded (s : GState) (ccid callId ns : String) (now : Nat)
    (hmem : callId ∈ s.inactivityTimeouts) :
    callId ∈ (handleSpeakEnded s ccid callId ns now).1.inactivityTimeouts := by
  unfold handleSpeakEnded
  cases h : getCall s callId with
  | none => simpa [h] using hmem
  | some call =>
    simp only [h]
    split
    · split
      · exact hmem
      · simpa [setCall] using hmem
    · split
      · simp only [setCall]
        rw [show (resetInactivityTimeout s callId now).inactivityTimeouts
            = insertSet (removeSet s.inactivityTimeouts callId) callId from
            inactivityTimeouts_reset s callId now]
        exact mem_insertSet_self _ _
      · exact hmem

theorem mem_its_handleGatherEnded (s : GState) (ccid callId : String)
    (digits : List Char) (dir : Directory) (ns : String) (now : Nat)
    (hmem : callId ∈ s.inactivityTimeouts) :
    callId ∈ (handleGatherEnded s ccid callId digits dir ns now).1.inactivityTimeouts := by
  unfold handleGatherEnded
  cases h : getCall s callId with
  | none => simpa [h] using hmem
  | some call =>
    simp only [h]
    have hs0 : callId ∈ (resetInactivityTimeout s callId now).inactivityTimeouts := by
      rw [inactivityTimeouts_reset]
      exact mem_insertSet_self _ _
    split
    · split
      · exact hs0
      · split
        · exact hs0
        · split
          · simpa [setCall] using hs0
          · split
            · simpa [setCall] using hs0
            · refine mem_its_handleSpeakEnded _ _ _ _ _ ?_
              simpa [setCall] using hs0
    · split
      · rw [its_procesarOpcionMenu]
        exact hs0
      · exact hs0

theorem mem_its_procesarBargeIn (s : GState) (ccid callId : String)
    (dir : Directory) (ns : String) (now : Nat)
    (hmem : callId ∈ s.inactivityTimeouts) :
    callId ∈ (procesarBargeIn s ccid callId dir ns now).1.inactivityTimeouts := by
  unfold procesarBargeIn
  cases h : getCall s callId with
  | none => simpa [h] using hmem
  | some call =>
    simp only [h]
    split
    · exact hmem
    · split
      · exact hmem
      · refine mem_its_handleGatherEnded _ _ _ _ _ _ _ ?_
        simpa [setCall] using hmem

/-- C7: the inactivity watchdog is a no-op on a session in the transfer
stage or with a pending transfer announcement; for any live session the
inactivity timer is re-armed on each digit received and on each
digit-collection completion. -/
theorem inactivity_watchdog_contract :
    (∀ (s : GState) (callId : String) (call : CallData),
       getCall s callId = some call →
       call.etapa = "transferencia" ∨ call.transferPending = true →
       handleInactivity s callId = (s, []))
    ∧ (∀ (s : GState) (ccid callId : String) (d : Char) (dir : Directory)
         (ns : String) (now : Nat) (call : CallData),
       getCall s callId = some call →
       callId ∈ (handleDtmfReceived s ccid callId d dir ns now).1.inactivityTimeouts)
    ∧ (∀ (s : GState) (ccid callId : String) (ds : List Char) (dir : Directory)
         (ns : String) (now : Nat) (call : CallData),
       getCall s callId = some call →
       callId ∈ (handleGatherEnded s ccid callId ds dir ns now).1.inactivityTimeouts) := by
  refine ⟨?_, ?_, ?_⟩
  · intro s callId call hget hph
    simp [handleInactivity, hget, hph]
  · intro s ccid callId d dir ns now call hget
    unfold handleDtmfReceived
    simp only [hget]
    have hs0 : callId ∈ (resetInactivityTimeout s callId now).inactivityTimeouts := by
      rw [inactivityTimeouts_reset]
      exact mem_insertSet_self _ _
    split
    · exact hs0
    · split
      · simpa [setCall] using hs0
      · split
        · split
          · refine mem_its_procesarBargeIn _ _ _ _ _ _ ?_
            simpa [setCall] using hs0
          · simpa [setCall] using hs0
        · exact hs0
  · intro s ccid callId ds dir ns now call hget
    have hs0 : callId ∈ (resetInactivityTimeout s callId now).inactivityTimeouts := by
      rw [inactivityTimeouts_reset]
      exact mem_insertSet_self _ _
    unfold handleGatherEnded
    simp only [hget]
    split
    · split
      · exact hs0
      · split
        · exact hs0
        · split
          · simpa [setCall] using hs0
          · split
            · simpa [setCall] using hs0
            · refine mem_its_handleSpeakEnded _ _ _ _ _ ?_
              simpa [setCall] using hs0
    · split
      · rw [its_procesarOpcionMenu]
        exact hs0
      · exact hs0

/-- Case directory oracle with no data, for concrete witnesses. -/
def dirEmpty : Directory :=
  { expediente := fun _ => none, costo := fun _ => none, unidad := fun _ => none,
    tiempos := fun _ => none, ubicacion := fun _ => none }

/-- Witness for `inactivity_watchdog_contract` at concrete states. -/
theorem inactivity_watchdog_contract_witness :
    handleInactivity
        { activeCalls := [("c1", { etapa := "transferencia" })],
          inactivityTimeouts := ["c1"] } "c1"
      = ({ activeCalls := [("c1", { etapa := "transferencia" })],
           inactivityTimeouts := ["c1"] }, [])
    ∧ "c1" ∈ (handleDtmfReceived { activeCalls := [("c1", {})] } "cc" "c1" '1'
        dirEmpty "555" 0).1.inactivityTimeouts
    ∧ "c1" ∈ (handleGatherEnded { activeCalls := [("c1", {})] } "cc" "c1" ['1']
        dirEmpty "555" 0).1.inactivityTimeouts :=
  ⟨inactivity_watchdog_contract.1 _ "c1" { etapa := "transferencia" } rfl (Or.inl rfl),
   inactivity_watchdog_contract.2.1 _ "cc" "c1" '1' dirEmpty "555" 0 {} rfl,
   inactivity_watchdog_contract.2.2 _ "cc" "c1" ['1'] dirEmpty "555" 0 {} rfl⟩

/-- Witness for `case_ceiling_rejects_without_lookup` at a concrete state. -/
theorem case_ceiling_rejects_without_lookup_witness :
    handleGatherEnded { activeCalls := [("c1", { expedientesConsultados := 10 })] }
        "cc" "c1" ['9'] dirEmpty "555" 0
      = (resetInactivityTimeout
          { activeCalls := [("c1", { expedientesConsultados := 10 })] } "c1" 0,
         [Cmd.speak MENSAJES.LIMITE_EXPEDIENTES, Cmd.scheduleHangup 5000])
    ∧ ∀ d, Cmd.lookupExpediente d ∉ (handleGatherEnded
        { activeCalls := [("c1", { expedientesConsultados := 10 })] }
        "cc" "c1" ['9'] dirEmpty "555" 0).2 :=
  case_ceiling_rejects_without_lookup _ "cc" "c1" ['9'] dirEmpty "555" 0
    { expedientesConsultados := 10 } rfl rfl (by decide)

/-- C4 (amended): a case number already successfully looked up twice in the
call is rejected in AwaitingCase without any further directory lookup and
with a hangup scheduled; the already-queried message is spoken when the
ten-case ceiling has not been reached, while a session that has also hit the
ten-case ceiling gets the limit message instead (that ceiling is checked
first). -/
theorem per_case_ceiling_amended
    (s : GState) (ccid callId : String) (digits : List Char) (dir : Directory)
    (ns : String) (now : Nat) (call : CallData) (n : Nat)
    (hget : getCall s callId = some call)
    (hstage : call.etapa = "esperando_expediente")
    (hn : lookupAssoc call.consultasPorExpediente digits = some n)
    (h2 : n ≥ 2) :
    (∀ d, Cmd.lookupExpediente d ∉ (handleGatherEnded s ccid callId digits dir ns now).2)
    ∧ (call.expedientesConsultados < 10 →
        handleGatherEnded s ccid callId digits dir ns now
          = (resetInactivityTimeout s callId now,
             [Cmd.speak MENSAJES.EXPEDIENTE_YA_CONSULTADO, Cmd.scheduleHangup 5000]))
    ∧ (call.expedientesConsultados ≥ 10 →
        handleGatherEnded s ccid callId digits dir ns now
          = (resetInactivityTimeout s callId now,
             [Cmd.speak MENSAJES.LIMITE_EXPEDIENTES, Cmd.scheduleHangup 5000])) := by
  by_cases hc : call.expedientesConsultados ≥ 10
  · have heq : handleGatherEnded s ccid callId digits dir ns now
        = (resetInactivityTimeout s callId now,
           [Cmd.speak MENSAJES.LIMITE_EXPEDIENTES, Cmd.scheduleHangup 5000]) := by
      simp only [handleGatherEnded, hget]
      simp [hstage, hc]
    refine ⟨?_, ?_, fun _ => heq⟩
    · rw [heq]
      intro d
      simp
    · intro hlt
      exact absurd hc (not_le.mpr hlt)
  · have heq : handleGatherEnded s ccid callId digits dir ns now
        = (resetInactivityTimeout s callId now,
           [Cmd.speak MENSAJES.EXPEDIENTE_YA_CONSULTADO, Cmd.scheduleHangup 5000]) := by
      simp only [handleGatherEnded, hget]
      simp [hstage, hc, hn, h2]
    refine ⟨?_, fun _ => heq, ?_⟩
    · rw [heq]
      intro d
      simp
    · intro hge
      exact absurd hge hc

/-- Session with three lookups done and one case number already queried
twice, for the amended per-case-ceiling witness. -/
def wit4Call : CallData :=
  { expedientesConsultados := 3, consultasPorExpediente := [(['7'], 2)] }

/-- State holding `wit4Call`. -/
def wit4State : GState := { activeCalls := [("c1", wit4Call)] }

/-- Witness for `per_case_ceiling_amended` at a concrete state. -/
theorem per_case_ceiling_amended_witness :
    (∀ d, Cmd.lookupExpediente d
        ∉ (handleGatherEnded wit4State "cc" "c1" ['7'] dirEmpty "555" 0).2)
    ∧ handleGatherEnded wit4State "cc" "c1" ['7'] dirEmpty "555" 0
        = (resetInactivityTimeout wit4State "c1" 0,
           [Cmd.speak MENSAJES.EXPEDIENTE_YA_CONSULTADO, Cmd.scheduleHangup 5000]) := by
  have h := per_case_ceiling_amended wit4State "cc" "c1" ['7'] dirEmpty "555" 0
    wit4Call 2 rfl rfl (by decide) (by decide)
  exact ⟨h.1, h.2.1 (by decide)⟩

/-- Session that has hit both ceilings: ten successful lookups in the call
and the submitted case number already looked up twice. -/
def cex4Call : CallData :=
  { expedientesConsultados := 10, consultasPorExpediente := [(['7'], 2)] }

/-- State holding `cex4Call`. -/
def cex4State : GState := { activeCalls := [("c1", cex4Call)] }

/-- C4 counterexample: for a session whose submitted case number has already
been looked up twice but whose total-lookup count has also reached ten, the
handler speaks the limit message and not the already-queried message the
claim requires. -/
theorem per_case_ceiling_counterexample :
    Cmd.speak MENSAJES.EXPEDIENTE_YA_CONSULTADO
        ∉ (handleGatherEnded cex4State "cc" "c1" ['7'] dirEmpty "555" 0).2
    ∧ Cmd.speak MENSAJES.LIMITE_EXPEDIENTES
        ∈ (handleGatherEnded cex4State "cc" "c1" ['7'] dirEmpty "555" 0).2 := by
  constructor
  · intro hmem
    revert hmem
    decide
  · decide

theorem dialCount_append (a b : List Cmd) :
    dialCount (a ++ b) = dialCount a + dialCount b := by
  simp [dialCount, List.filter_append]

theorem speakEndedSrc_noop (s : GState) (callId ns : String) (ok : Bool)
    (call : CallData) (hget : getCall s callId = some call)
    (h : (call.transferPending = false ∧ call.etapa = "transferencia")
      ∨ (call.transferPending = true ∧ callId ∈ s.transferredCalls)) :
    handleSpeakEndedSrc s callId ns ok = (s, []) := by
  unfold handleSpeakEndedSrc
  simp only [hget]
  rcases h with ⟨h1, h2⟩ | ⟨h1, h2⟩
  · simp [h1, h2]
  · simp [h1, h2]

theorem runSpeakEndedSrc_noop (s : GState) (callId ns : String) (oks : List Bool)
    (call : CallData) (hget : getCall s callId = some call)
    (h : (call.transferPending = false ∧ call.etapa = "transferencia")
      ∨ (call.transferPending = true ∧ callId ∈ s.transferredCalls)) :
    runSpeakEndedSrc s callId ns oks = (s, []) := by
  induction oks with
  | nil => rfl
  | cons ok t ih =>
    unfold runSpeakEndedSrc at ih ⊢
    rw [runTrace_cons]
    rw [speakEndedSrc_noop s callId ns ok call hget h]
    simpa using ih

theorem speakEndedSrc_trigger (s : GState) (callId ns : String) (ok : Bool)
    (call : CallData) (hget : getCall s callId = some call)
    (hp : call.transferPending = true) (hmem : callId ∉ s.transferredCalls) :
    handleSpeakEndedSrc s callId ns ok
      = (if ok then
           { setCall s callId { call with transferPending := false } with
             transferredCalls := insertSet s.transferredCalls callId }
         else setCall s callId { call with transferPending := false },
         if ok then [Cmd.transferDial ns]
         else [Cmd.transferDial ns, Cmd.speak MENSAJES.TRANSFERENCIA_FALLIDA,
               Cmd.scheduleHangup 3000]) := by
  unfold handleSpeakEndedSrc
  simp only [hget]
  cases ok <;> simp [hp, hmem, setCall]

/-- C1: once a session has entered the transfer-announcement stage, any
number of duplicate speech-completed events issues at most one transfer
dial; after the first event has been processed, a further completion event
leaves the state unchanged and dials nothing. -/
theorem speak_ended_duplicate_dial_once
    (s : GState) (callId ns : String) (call : CallData) (oks : List Bool)
    (ok1 ok2 : Bool)
    (hget : getCall s callId = some call)
    (hp : call.transferPending = true)
    (he : call.etapa = "transferencia") :
    dialCount (runSpeakEndedSrc s callId ns oks).2 ≤ 1
    ∧ handleSpeakEndedSrc (handleSpeakEndedSrc s callId ns ok1).1 callId ns ok2
        = ((handleSpeakEndedSrc s callId ns ok1).1, []) := by
  by_cases hmem : callId ∈ s.transferredCalls
  · have hno : ∀ ok, handleSpeakEndedSrc s callId ns ok = (s, []) := fun ok =>
      speakEndedSrc_noop s callId ns ok call hget (Or.inr ⟨hp, hmem⟩)
    constructor
    · rw [runSpeakEndedSrc_noop s callId ns oks call hget (Or.inr ⟨hp, hmem⟩)]
      simp [dialCount]
    · rw [hno ok1]
      exact hno ok2
  · -- the first processed event triggers the hand-off
    have htr := fun ok => speakEndedSrc_trigger s callId ns ok call hget hp hmem
    have hafter : ∀ ok, getCall (handleSpeakEndedSrc s callId ns ok).1 callId
        = some { call with transferPending := false } := by
      intro ok
      rw [htr ok]
      cases ok <;> simp [getCall, setCall, lookupAssoc_setAssoc_self]
    have hnoop2 : ∀ ok okn, handleSpeakEndedSrc (handleSpeakEndedSrc s callId ns ok).1
        callId ns okn = ((handleSpeakEndedSrc s callId ns ok).1, []) := by
      intro ok okn
      refine speakEndedSrc_noop _ callId ns okn { call with transferPending := false }
        (hafter ok) (Or.inl ⟨rfl, he⟩)
    refine ⟨?_, hnoop2 ok1 ok2⟩
    cases oks with
    | nil => simp [runSpeakEndedSrc, runTrace, dialCount]
    | cons ok t =>
      unfold runSpeakEndedSrc
      rw [runTrace_cons]
      have hrest : runTrace
          (fun st ok2 => handleSpeakEndedSrc st callId ns ok2)
          (handleSpeakEndedSrc s callId ns ok).1 t = ((handleSpeakEndedSrc s callId ns ok).1, []) := by
        have := runSpeakEndedSrc_noop (handleSpeakEndedSrc s callId ns ok).1 callId ns t
          { call with transferPending := false } (hafter ok) (Or.inl ⟨rfl, he⟩)
        simpa [runSpeakEndedSrc] using this
      rw [hrest]
      simp only []
      rw [dialCount_append]
      rw [htr ok]
      cases ok <;> simp [dialCount]

/-- Session in the transfer-announcement stage (announcement spoken,
hand-off pending). -/
def wit1Call : CallData := { etapa := "transferencia", transferPending := true }

/-- State holding `wit1Call`. -/
def wit1State : GState := { activeCalls := [("c1", wit1Call)] }

/-- Witness for `speak_ended_duplicate_dial_once` on a concrete session fed
two duplicate completion events. -/
theorem speak_ended_duplicate_dial_once_witness :
    dialCount (runSpeakEndedSrc wit1State "c1" "555" [true, true]).2 ≤ 1
    ∧ handleSpeakEndedSrc (handleSpeakEndedSrc wit1State "c1" "555" true).1
        "c1" "555" true = ((handleSpeakEndedSrc wit1State "c1" "555" true).1, []) :=
  speak_ended_duplicate_dial_once wit1State "c1" "555" wit1Call [true, true]
    true true rfl rfl rfl

theorem spokenTexts_append (a b : List Cmd) :
    spokenTexts (a ++ b) = spokenTexts a ++ spokenTexts b := by
  simp [spokenTexts]

theorem insertSet_removeSet_stable {κ : Type} [DecidableEq κ] (l : List κ) (k : κ) :
    insertSet (removeSet (insertSet (removeSet l k) k) k) k
      = insertSet (removeSet l k) k := by
  rw [removeSet_insertSet, removeSet_idem]

theorem speakEnded_stage_spoken (s : GState) (ccid callId ns : String) (now : Nat)
    (u : CallData) (hget : getCall s callId = some u) :
    stageAt (handleSpeakEnded s ccid callId ns now).1 callId = some u.etapa
    ∧ spokenTexts (handleSpeakEnded s ccid callId ns now).2 = [] := by
  unfold handleSpeakEnded
  simp only [hget]
  split
  · split
    · simp [stageAt, hget, spokenTexts]
    · simp [stageAt_setCall_self, spokenTexts]
  · split
    · constructor
      · rw [stageAt_setCall_self]
      · simp [spokenTexts]
    · simp [stageAt, hget, spokenTexts]

/-- Stage reached from AwaitingCase on a digit submission, as a function of
only the ceiling counters, the retry counter and the lookup result. -/
def gatherStage (call : CallData) (ds : List Char) (dir : Directory) : Option String :=
  if call.expedientesConsultados ≥ 10 then some call.etapa
  else if (match lookupAssoc call.consultasPorExpediente ds with
           | some n => decide (n ≥ 2) | none => false) then some call.etapa
  else match dir.expediente ds with
    | some _ => some "menu_principal"
    | none =>
      if call.intentos + 1 ≥ 2 then some "transferencia" else some call.etapa

/-- Spoken texts produced from AwaitingCase on a digit submission, as a
function of only the ceiling counters, the retry counter and the lookup
result. -/
def gatherSpoken (call : CallData) (ds : List Char) (dir : Directory) : List String :=
  if call.expedientesConsultados ≥ 10 then [MENSAJES.LIMITE_EXPEDIENTES]
  else if (match lookupAssoc call.consultasPorExpediente ds with
           | some n => decide (n ≥ 2) | none => false) then
    [MENSAJES.EXPEDIENTE_YA_CONSULTADO]
  else match dir.expediente ds with
    | some data =>
      [(if (lookupAssoc call.consultasPorExpediente ds).getD 0 = 1 then
          MENSAJES.SEGUNDA_CONSULTA ++ " " else "")
        ++ "Expediente encontrado. " ++ data.nombre ++ ". " ++
        "Vehículo: " ++ data.vehiculo ++ ". Estado: " ++ data.estatus ++
        ". Servicio: " ++ data.servicio ++ ". " ++
        "Destino: " ++ data.destino ++ ". "]
    | none =>
      if call.intentos + 1 ≥ 2 then [MENSAJES.TRANSFERENCIA]
      else [MENSAJES.REINGRESO_EXPEDIENTE]

theorem gather_stage_spoken (s : GState) (ccid callId : String) (ds : List Char)
    (dir : Directory) (ns : String) (now : Nat) (call : CallData)
    (hget : getCall s callId = some call)
    (het : call.etapa = "esperando_expediente") :
    stageAt (handleGatherEnded s ccid callId ds dir ns now).1 callId
      = gatherStage call ds dir
    ∧ spokenTexts (handleGatherEnded s ccid callId ds dir ns now).2
      = gatherSpoken call ds dir := by
  unfold handleGatherEnded gatherStage gatherSpoken
  simp only [hget, if_pos het]
  by_cases h10 : call.expedientesConsultados ≥ 10
  · simp only [if_pos h10]
    refine ⟨?_, by simp [spokenTexts]⟩
    rw [stageAt_reset]
    simp [stageAt, hget]
  · simp only [if_neg h10]
    by_cases hpc : (match lookupAssoc call.consultasPorExpediente ds with
        | some n => decide (n ≥ 2) | none => false) = true
    · simp only [if_pos hpc]
      refine ⟨?_, by simp [spokenTexts]⟩
      rw [stageAt_reset]
      simp [stageAt, hget]
    · simp only [if_neg hpc]
      cases hdir : dir.expediente ds with
      | some data =>
        simp only [hdir]
        constructor
        · rw [stageAt_setCall_self]
        · simp [spokenTexts]
      | none =>
        simp only [hdir]
        by_cases hint : call.intentos + 1 ≥ 2
        · simp only [if_pos hint]
          constructor
          · rw [stageAt_setCall_self]
          · simp [spokenTexts]
        · simp only [if_neg hint]
          constructor
          · rw [(speakEnded_stage_spoken _ ccid callId ns now _
              (getCall_setCall_self _ _ _)).1]
          · rw [spokenTexts_append,
              (speakEnded_stage_spoken _ ccid callId ns now _
                (getCall_setCall_self _ _ _)).2]
            simp [spokenTexts]

/-- Session during barge-in accumulation: buffer `p`, fresh timestamp. -/
def bufCall (call : CallData) (p : List Char) (now : Nat) : CallData :=
  { call with
      bargeInBuffer := some p, bargeInTimestamp := some now, lastActivity := now }

/-- Global state during barge-in accumulation for one session. -/
def bufState (s : GState) (callId : String) (call : CallData) (p : List Char)
    (now : Nat) : GState :=
  { s with
      inactivityTimeouts := insertSet (removeSet s.inactivityTimeouts callId) callId,
      activeCalls := setAssoc s.activeCalls callId (bufCall call p now) }

/-- Session right after the barge-in buffer has been flushed. -/
def flushCall (call : CallData) (now : Nat) : CallData :=
  { call with bargeInBuffer := none, bargeInTimestamp := none, lastActivity := now }

/-- Global state right after the barge-in buffer has been flushed. -/
def flushState (s : GState) (callId : String) (call : CallData) (now : Nat) : GState :=
  { s with
      inactivityTimeouts := insertSet (removeSet s.inactivityTimeouts callId) callId,
      activeCalls := setAssoc s.activeCalls callId (flushCall call now) }

theorem dtmf_first (s : GState) (ccid callId : String) (d : Char)
    (dir : Directory) (ns : String) (now : Nat) (call : CallData)
    (hget : getCall s callId = some call)
    (hga : call.gatheringDigits = false)
    (het : call.etapa = "esperando_expediente")
    (hbuf : call.bargeInBuffer = none) :
    handleDtmfReceived s ccid callId d dir ns now
      = (bufState s callId call [d] now,
         [Cmd.stopSpeaking, Cmd.scheduleBargeInCheck 3000]) := by
  unfold handleDtmfReceived
  simp only [hget]
  rw [resetInactivityTimeout_some s callId now call hget]
  simp [hga, het, hbuf, setCall, bufState, bufCall, setAssoc_setAssoc]

theorem getCall_bufState (s : GState) (callId : String) (call : CallData)
    (p : List Char) (now : Nat) :
    getCall (bufState s callId call p now) callId = some (bufCall call p now) := by
  simp [bufState, getCall, lookupAssoc_setAssoc_self]

theorem dtmf_next (s : GState) (ccid callId : String) (d : Char)
    (dir : Directory) (ns : String) (now : Nat) (call : CallData) (p : List Char)
    (hga : call.gatheringDigits = false)
    (hd : d ≠ '#') :
    handleDtmfReceived (bufState s callId call p now) ccid callId d dir ns now
      = (bufState s callId call (p ++ [d]) now, [Cmd.scheduleBargeInCheck 3000]) := by
  unfold handleDtmfReceived
  simp only [getCall_bufState]
  rw [resetInactivityTimeout_some _ callId now _ (getCall_bufState s callId call p now)]
  simp only [bufState, bufCall]
  simp [hga, hd, setCall, setAssoc_setAssoc, insertSet_removeSet_stable]

theorem bargeIn_flush (s : GState) (ccid callId : String)
    (dir : Directory) (ns : String) (now : Nat) (call : CallData) (p : List Char) :
    procesarBargeIn (bufState s callId call (p ++ ['#']) now) ccid callId dir ns now
      = handleGatherEnded (flushState s callId call now) ccid callId p dir ns now := by
  unfold procesarBargeIn
  simp only [getCall_bufState]
  simp only [bufState, bufCall, flushState, flushCall]
  simp [setCall, setAssoc_setAssoc]

theorem dtmf_hash (s : GState) (ccid callId : String)
    (dir : Directory) (ns : String) (now : Nat) (call : CallData) (p : List Char)
    (hga : call.gatheringDigits = false) :
    handleDtmfReceived (bufState s callId call p now) ccid callId '#' dir ns now
      = handleGatherEnded (flushState s callId call now) ccid callId p dir ns now := by
  unfold handleDtmfReceived
  simp only [getCall_bufState]
  rw [resetInactivityTimeout_some _ callId now _ (getCall_bufState s callId call p now)]
  have hstate : (setCall
      { bufState s callId call p now with
          inactivityTimeouts := insertSet (removeSet
            (bufState s callId call p now).inactivityTimeouts callId) callId,
          activeCalls := setAssoc (bufState s callId call p now).activeCalls callId
            { bufCall call p now with lastActivity := now } }
      callId
      { bufCall call p now with
          bargeInBuffer := some (p ++ ['#']), lastActivity := now })
      = bufState s callId call (p ++ ['#']) now := by
    simp [bufState, bufCall, setCall, setAssoc_setAssoc, insertSet_removeSet_stable]
  conv_lhs => simp only [bufCall, hga]
  rw [← bargeIn_flush s ccid callId dir ns now call p]
  simp only [bufCall] at hstate
  rw [hga] at hstate
  rw [hstate]
  simp

theorem runDtmf_from_buf (s : GState) (ccid callId : String)
    (dir : Directory) (ns : String) (now : Nat) (call : CallData)
    (hga : call.gatheringDigits = false) :
    ∀ (rest p : List Char), '#' ∉ rest →
    stageAt (runDtmf (bufState s callId call p now) ccid callId
        (rest ++ ['#']) dir ns now).1 callId
      = stageAt (handleGatherEnded (flushState s callId call now) ccid callId
          (p ++ rest) dir ns now).1 callId
    ∧ spokenTexts (runDtmf (bufState s callId call p now) ccid callId
        (rest ++ ['#']) dir ns now).2
      = spokenTexts (handleGatherEnded (flushState s callId call now) ccid callId
          (p ++ rest) dir ns now).2 := by
  intro rest
  induction rest with
  | nil =>
    intro p hmem
    unfold runDtmf
    simp only [List.nil_append]
    rw [runTrace_cons]
    simp only []
    rw [dtmf_hash s ccid callId dir ns now call p hga]
    simp [runTrace]
  | cons e rest ih =>
    intro p hmem
    have he : e ≠ '#' := fun h => hmem (by simp [h])
    have hrest : '#' ∉ rest := fun h => hmem (List.mem_cons_of_mem _ h)
    unfold runDtmf
    simp only [List.cons_append]
    rw [runTrace_cons]
    simp only []
    rw [dtmf_next s ccid callId e dir ns now call p hga he]
    have hih := ih (p ++ [e]) hrest
    unfold runDtmf at hih
    have hlist : (p ++ [e]) ++ rest = p ++ (e :: rest) := by simp
    rw [hlist] at hih
    constructor
    · exact hih.1
    · rw [spokenTexts_append, hih.2]
      simp [spokenTexts]

/-- C2: a digit sequence delivered through an explicit collection completion
and the same sequence delivered digit by digit through barge-in (terminated
with the gather terminator, which is stripped) leave the session in the same
stage and produce the same spoken content. -/
theorem bargein_gather_roundtrip
    (s : GState) (ccid callId : String) (ds : List Char) (dir : Directory)
    (ns : String) (now : Nat) (call : CallData)
    (hget : getCall s callId = some call)
    (hga : call.gatheringDigits = false)
    (het : call.etapa = "esperando_expediente")
    (hbuf : call.bargeInBuffer = none)
    (hne : ds ≠ [])
    (hmem : '#' ∉ ds) :
    stageAt (runDtmf s ccid callId (ds ++ ['#']) dir ns now).1 callId
      = stageAt (handleGatherEnded s ccid callId ds dir ns now).1 callId
    ∧ spokenTexts (runDtmf s ccid callId (ds ++ ['#']) dir ns now).2
      = spokenTexts (handleGatherEnded s ccid callId ds dir ns now).2 := by
  obtain ⟨d, rest, rfl⟩ := List.exists_cons_of_ne_nil hne
  have hd : d ≠ '#' := fun h => hmem (by simp [h])
  have hrest : '#' ∉ rest := fun h => hmem (List.mem_cons_of_mem _ h)
  unfold runDtmf
  simp only [List.cons_append]
  rw [runTrace_cons]
  simp only []
  rw [dtmf_first s ccid callId d dir ns now call hget hga het hbuf]
  have hbufrun := runDtmf_from_buf s ccid callId dir ns now call hga rest [d] hrest
  unfold runDtmf at hbufrun
  have hlist : ([d] ++ rest : List Char) = d :: rest := by simp
  rw [hlist] at hbufrun
  have hflushget : getCall (flushState s callId call now) callId
      = some (flushCall call now) := by
    simp [flushState, getCall, lookupAssoc_setAssoc_self]
  have hflushet : (flushCall call now).etapa = "esperando_expediente" := by
    simpa [flushCall] using het
  have hB := gather_stage_spoken (flushState s callId call now) ccid callId
    (d :: rest) dir ns now (flushCall call now) hflushget hflushet
  have hA := gather_stage_spoken s ccid callId (d :: rest) dir ns now call hget het
  have hS1 : gatherStage (flushCall call now) (d :: rest) dir
      = gatherStage call (d :: rest) dir := rfl
  have hS2 : gatherSpoken (flushCall call now) (d :: rest) dir
      = gatherSpoken call (d :: rest) dir := rfl
  constructor
  · rw [hbufrun.1, hB.1, hS1, ← hA.1]
  · rw [spokenTexts_append, hbufrun.2, hB.2, hS2, ← hA.2]
    simp [spokenTexts]

/-- Case record used by the round-trip witness. -/
def wit2Exp : Expediente :=
  { nombre := "N", vehiculo := "V", estatus := "Concluido",
    servicio := "Local", destino := "D" }

/-- Directory resolving only case 100, for the round-trip witness. -/
def wit2Dir : Directory :=
  { expediente := fun d => if d = ['1', '0', '0'] then some wit2Exp else none,
    costo := fun _ => none, unidad := fun _ => none,
    tiempos := fun _ => none, ubicacion := fun _ => none }

/-- Fresh-session state for the round-trip witness. -/
def wit2State : GState := { activeCalls := [("c1", {})] }

/-- Witness for `bargein_gather_roundtrip`: digits 1 0 0 delivered by
explicit collection and by barge-in with a trailing terminator. -/
theorem bargein_gather_roundtrip_witness :
    stageAt (runDtmf wit2State "cc" "c1" (['1', '0', '0'] ++ ['#'])
        wit2Dir "555" 7).1 "c1"
      = stageAt (handleGatherEnded wit2State "cc" "c1" ['1', '0', '0']
          wit2Dir "555" 7).1 "c1"
    ∧ spokenTexts (runDtmf wit2State "cc" "c1" (['1', '0', '0'] ++ ['#'])
        wit2Dir "555" 7).2
      = spokenTexts (handleGatherEnded wit2State "cc" "c1" ['1', '0', '0']
          wit2Dir "555" 7).2 :=
  bargein_gather_roundtrip wit2State "cc" "c1" ['1', '0', '0'] wit2Dir "555" 7
    {} rfl rfl rfl rfl (by decide) (by decide)
